import Mathlib

/-!
Shallow embedding of the loki-mcp-server tool layer.

Source files embedded:
  - src/parse_interval.py : `parse_interval`
  - src/server.py         : `LokiRequest` and the five MCP tools
    (`query_range`, `instant_query`, `get_labels`, `get_label_values`,
     `get_log_stats`).

Modelling decisions:
  - `time.time() * 1_000_000_000` (the wall clock) is injected as an explicit
    `now_ns : Int` parameter, so every function is deterministic.
  - `datetime.timedelta` is modelled by its integer number of total seconds
    (`Timedelta.seconds`).  The source computes
    `td.total_seconds() * 1_000_000_000` in floats; for the integer-second
    durations produced by `parse_interval` this product is the exact integer
    `seconds * 10^9`, which `Timedelta.total_ns` computes directly.
    CPython's `timedelta` constructor normalizes its arguments and raises
    `OverflowError` when the normalized day count has magnitude above
    999999999; `mkTimedelta` keeps that error path: for an integer number
    of seconds `s` the normalized day count is `floor(s / 86400)`, so the
    constructor succeeds exactly when
    `-999999999 * 86400 ≤ s < 1000000000 * 86400`.
  - Python `int(s)` (base 10) is modelled by `pyInt`: surrounding whitespace
    is stripped, an optional single sign is allowed, the remainder must be a
    non-empty run of decimal digits.  (CPython additionally allows `_`
    digit-grouping; no claim touches such inputs.)
  - Raised Python exceptions are `Except PyError`: `valueError` covers both
    the explicit `raise ValueError(...)` in `parse_interval` and the
    `ValueError` from `int()` on a bad prefix; `attributeError` covers
    `None.endswith(...)` (when `interval or step` is `None`) and calling
    `.get` on a non-dict JSON value.
  - The HTTP layer is an oracle `Backend : String → Params → Except
    BackendError Json` mapping (endpoint path suffix, query parameters) to a
    decoded JSON body or a `requests.RequestException`-style failure
    (`httpError` from `raise_for_status` on a non-2xx status, or
    `transportError`).  Each tool's `except requests.RequestException`
    clause catches exactly these.
  - Params are the ordered dict the source passes to `session.get`: an
    association list from parameter name to a Python value (int, str or
    None).
  - Python truthiness in `request.start if request.start else ...`,
    `interval or step`, `if request.interval:` is modelled explicitly
    (`pyOrElseInt`, `pyOr`, `truthyStr`): `None`, `0` and `""` are falsy.
  - The dataclass field `end` is a Lean keyword; it is named `end_` here.
  - The dataclass declares `query: str`, so the `None` arm of the source's
    `request.query not in [None, "\x7b\x7d"]` check is unreachable for a
    well-typed request; `normalizeQuery` keeps the reachable `"\x7b\x7d"`
    (empty-matcher) arm.
-/

inductive PyError where
  | valueError
  | attributeError
  | overflowError
deriving DecidableEq

structure Timedelta where
  seconds : Int
deriving DecidableEq

def Timedelta.total_ns (t : Timedelta) : Int :=
  t.seconds * 1000000000

/-- The `datetime.timedelta` constructor on a whole number of seconds.
CPython normalizes to (days, seconds, microseconds) and raises
`OverflowError` unless the day count `floor(s / 86400)` has magnitude at
most 999999999, i.e. unless
`-999999999 * 86400 = -86399999913600 ≤ s < 1000000000 * 86400 =
86400000000000`. -/
def mkTimedelta (s : Int) : Except PyError Timedelta :=
  if s < -86399999913600 ∨ 86400000000000 ≤ s then .error .overflowError
  else .ok ⟨s⟩

def pyIsSpace (c : Char) : Bool :=
  c == ' ' || c == '\t' || c == '\n' || c == '\r' || c == '\x0b' || c == '\x0c'

def allDigits (cs : List Char) : Bool :=
  cs.all Char.isDigit

def digitsVal (cs : List Char) : Nat :=
  cs.foldl (fun a c => a * 10 + (c.toNat - 48)) 0

def pyStrip (cs : List Char) : List Char :=
  ((cs.dropWhile pyIsSpace).reverse.dropWhile pyIsSpace).reverse

def pyIntCore (cs : List Char) : Option Int :=
  match cs with
  | [] => Option.none
  | c :: rest =>
    if c = '+' then
      if rest.isEmpty then Option.none
      else if allDigits rest then some (digitsVal rest : Int) else Option.none
    else if c = '-' then
      if rest.isEmpty then Option.none
      else if allDigits rest then some (-(digitsVal rest : Int)) else Option.none
    else if allDigits (c :: rest) then some (digitsVal (c :: rest) : Int)
    else Option.none

def pyInt (cs : List Char) : Option Int :=
  pyIntCore (pyStrip cs)

/-- src/parse_interval.py, lines 3-17: dispatch on the final character
(`endswith`), convert the prefix with `int(...)` (`ValueError` on failure),
return the matching `timedelta(minutes/hours/days=...)` — whose
constructor can itself raise `OverflowError` (see `mkTimedelta`);
otherwise raise `ValueError("Unsupported interval format: ...")`. -/
def parse_interval (s : String) : Except PyError Timedelta :=
  let cs := s.data
  if cs.getLast? = some 'm' then
    match pyInt cs.dropLast with
    | some k => mkTimedelta (k * 60)
    | Option.none => .error .valueError
  else if cs.getLast? = some 'h' then
    match pyInt cs.dropLast with
    | some k => mkTimedelta (k * 3600)
    | Option.none => .error .valueError
  else if cs.getLast? = some 'd' then
    match pyInt cs.dropLast with
    | some k => mkTimedelta (k * 86400)
    | Option.none => .error .valueError
  else .error .valueError

inductive BackendError where
  | httpError (status : Nat)
  | transportError
deriving DecidableEq

inductive Json where
  | null
  | bool (b : Bool)
  | int (n : Int)
  | str (s : String)
  | arr (elems : List Json)
  | obj (fields : List (String × Json))

inductive PValue where
  | int (n : Int)
  | str (s : String)
  | none
deriving DecidableEq

def PValue.ofOptInt : Option Int → PValue
  | Option.none => PValue.none
  | some n => PValue.int n

def PValue.ofOptStr : Option String → PValue
  | Option.none => PValue.none
  | some s => PValue.str s

abbrev Params := List (String × PValue)

abbrev Backend := String → Params → Except BackendError Json

/-- src/server.py, lines 27-37: the `LokiRequest` dataclass (field `end`
renamed `end_`, a Lean keyword). -/
structure LokiRequest where
  query : String
  limit : Int := 100
  start : Option Int := Option.none
  end_ : Option Int := Option.none
  interval : Option String := Option.none
  step : Option String := Option.none
  direction : Option String := some "backward"
  label : Option String := Option.none
  selector : Option String := Option.none

/-- Python truthiness of an `Optional[str]`: `None` and `""` are falsy. -/
def truthyStr : Option String → Bool
  | Option.none => false
  | some s => !(s == "")

/-- Python `a or b` on `Optional[str]` operands. -/
def pyOr (a b : Option String) : Option String :=
  if truthyStr a then a else b

/-- Python `x if x else d` on an `Optional[int]`: `None` and `0` are falsy. -/
def pyOrElseInt : Option Int → Int → Int
  | Option.none, d => d
  | some n, d => if n == 0 then d else n

/-- Python f-string interpolation of an `Optional[str]`: `None` prints as
the four-character string `None`. -/
def pyStrOfOpt : Option String → String
  | Option.none => "None"
  | some s => s

/-- `parse_interval(request.interval or request.step)`: passing `None`
raises `AttributeError` at `interval.endswith("m")`. -/
def parse_interval_opt : Option String → Except PyError Timedelta
  | Option.none => .error .attributeError
  | some s => parse_interval s

/-- Python `dict.get(key, default)` on a decoded JSON value; on a non-dict
receiver the attribute lookup `.get` raises `AttributeError`. -/
def pyDictGet (j : Json) (key : String) (dflt : Json) : Except PyError Json :=
  match j with
  | .obj fields => .ok ((fields.lookup key).getD dflt)
  | _ => .error .attributeError

/-- src/server.py, lines 58-72: the parameter dict built by `query_range`.
`end_timestamp` is the injected clock; `start_timestamp` is always
computed (line 59 runs unconditionally), so a missing/bad window string
fails here even when `start` and `end` are supplied. -/
def query_range_params (now_ns : Int) (req : LokiRequest) : Except PyError Params :=
  let end_timestamp := now_ns
  match parse_interval_opt (pyOr req.interval req.step) with
  | .error e => .error e
  | .ok td =>
    let start_timestamp := end_timestamp - td.total_ns
    let base : Params :=
      [("query", PValue.str req.query),
       ("limit", PValue.int req.limit),
       ("start", PValue.int (pyOrElseInt req.start start_timestamp)),
       ("end", PValue.int (pyOrElseInt req.end_ end_timestamp)),
       ("direction", PValue.ofOptStr req.direction)]
    let ps1 := if truthyStr req.interval
      then base ++ [("interval", PValue.str (pyStrOfOpt req.interval))] else base
    let ps2 := if truthyStr req.step
      then ps1 ++ [("step", PValue.str (pyStrOfOpt req.step))] else ps1
    .ok ps2

/-- src/server.py, lines 39-85: `query_range`.  Backend failures
(`requests.RequestException`) yield `[]`; exceptions from line 59
(`ValueError` / `AttributeError`) propagate; the success body is
`response.json().get("data", \x7b\x7d).get("result", [])`. -/
def query_range (now_ns : Int) (req : LokiRequest) (backend : Backend) :
    Except PyError Json :=
  match query_range_params now_ns req with
  | .error e => .error e
  | .ok ps =>
    match backend "query_range" ps with
    | .error _ => .ok (Json.arr [])
    | .ok body =>
      match pyDictGet body "data" (Json.obj []) with
      | .error e => .error e
      | .ok d => pyDictGet d "result" (Json.arr [])

/-- src/server.py, lines 107-112: the parameter dict built by
`instant_query` (`time` instead of `start`/`end`). -/
def instant_query_params (now_ns : Int) (req : LokiRequest) : Params :=
  [("query", PValue.str req.query),
   ("limit", PValue.int req.limit),
   ("time", PValue.int (pyOrElseInt req.end_ now_ns)),
   ("direction", PValue.ofOptStr req.direction)]

/-- src/server.py, lines 87-125: `instant_query`. -/
def instant_query (now_ns : Int) (req : LokiRequest) (backend : Backend) :
    Except PyError Json :=
  match backend "query" (instant_query_params now_ns req) with
  | .error _ => .ok (Json.arr [])
  | .ok body =>
    match pyDictGet body "data" (Json.obj []) with
    | .error e => .error e
    | .ok d => pyDictGet d "result" (Json.arr [])

/-- `request.query if request.query not in [None, "\x7b\x7d"] else ""` for a
declared-`str` query: only the empty-matcher arm is reachable. -/
def normalizeQuery (q : String) : String :=
  if q == "\x7b\x7d" then "" else q

/-- src/server.py, lines 142-146: the parameter dict built by `get_labels`. -/
def get_labels_params (req : LokiRequest) : Params :=
  [("query", PValue.str (normalizeQuery req.query)),
   ("start", PValue.ofOptInt req.start),
   ("end", PValue.ofOptInt req.end_)]

/-- src/server.py, lines 127-159: `get_labels`; success body is
`response.json().get("data", [])`. -/
def get_labels (req : LokiRequest) (backend : Backend) : Except PyError Json :=
  match backend "labels" (get_labels_params req) with
  | .error _ => .ok (Json.arr [])
  | .ok body => pyDictGet body "data" (Json.arr [])

/-- src/server.py, lines 177-181: the parameter dict built by
`get_label_values` (same shape as `get_labels`). -/
def get_label_values_params (req : LokiRequest) : Params :=
  [("query", PValue.str (normalizeQuery req.query)),
   ("start", PValue.ofOptInt req.start),
   ("end", PValue.ofOptInt req.end_)]

/-- src/server.py, line 185: the f-string endpoint
`label/(request.label)/values`, with the label interpolated verbatim and
unvalidated. -/
def label_values_endpoint (req : LokiRequest) : String :=
  "label/" ++ pyStrOfOpt req.label ++ "/values"

/-- src/server.py, lines 161-194: `get_label_values`. -/
def get_label_values (req : LokiRequest) (backend : Backend) :
    Except PyError Json :=
  match backend (label_values_endpoint req) (get_label_values_params req) with
  | .error _ => .ok (Json.arr [])
  | .ok body => pyDictGet body "data" (Json.arr [])

/-- src/server.py, lines 211-215: the parameter dict built by
`get_log_stats`. -/
def get_log_stats_params (req : LokiRequest) : Params :=
  [("query", PValue.str (normalizeQuery req.query)),
   ("start", PValue.ofOptInt req.start),
   ("end", PValue.ofOptInt req.end_)]

/-- src/server.py, lines 196-228: `get_log_stats`; the success body
`response.json()` is returned whole, a backend failure yields the empty
dict. -/
def get_log_stats (req : LokiRequest) (backend : Backend) : Except PyError Json :=
  match backend "index/stats" (get_log_stats_params req) with
  | .error _ => .ok (Json.obj [])
  | .ok body => .ok body

/-! ### Helper lemmas about the Python `int()` model on digit strings -/

theorem isDigit_not_pyIsSpace (c : Char) (h : c.isDigit = true) :
    pyIsSpace c = false := by
  rcases hsp : pyIsSpace c with _ | _
  · rfl
  · exfalso
    simp only [pyIsSpace, Bool.or_eq_true, beq_iff_eq] at hsp
    rcases hsp with ((((rfl | rfl) | rfl) | rfl) | rfl) | rfl <;> exact absurd h (by decide)

theorem digits_dropWhile_space (cs : List Char) (hd : allDigits cs = true) :
    cs.dropWhile pyIsSpace = cs := by
  cases cs with
  | nil => rfl
  | cons c rest =>
    have h1 : c.isDigit = true := by
      simp only [allDigits, List.all_cons, Bool.and_eq_true] at hd
      exact hd.1
    rw [List.dropWhile_cons, isDigit_not_pyIsSpace c h1]
    simp

theorem digits_pyStrip (cs : List Char) (hd : allDigits cs = true) :
    pyStrip cs = cs := by
  unfold pyStrip
  rw [digits_dropWhile_space cs hd]
  have hrev : allDigits cs.reverse = true := by
    simpa only [allDigits, List.all_reverse] using hd
  rw [digits_dropWhile_space cs.reverse hrev, List.reverse_reverse]

theorem pyIntCore_digits (cs : List Char) (h : cs ≠ []) (hd : allDigits cs = true) :
    pyIntCore cs = some (digitsVal cs : Int) := by
  cases cs with
  | nil => exact absurd rfl h
  | cons c rest =>
    have h1 : c.isDigit = true := by
      simp only [allDigits, List.all_cons, Bool.and_eq_true] at hd
      exact hd.1
    have hplus : c ≠ '+' := by rintro rfl; exact absurd h1 (by decide)
    have hminus : c ≠ '-' := by rintro rfl; exact absurd h1 (by decide)
    simp [pyIntCore, hplus, hminus, hd]

theorem pyInt_digits (cs : List Char) (h : cs ≠ []) (hd : allDigits cs = true) :
    pyInt cs = some (digitsVal cs : Int) := by
  rw [pyInt, digits_pyStrip cs hd]
  exact pyIntCore_digits cs h hd

theorem mkTimedelta_ok (s : Int) (h1 : -86399999913600 ≤ s)
    (h2 : s < 86400000000000) :
    mkTimedelta s = .ok ⟨s⟩ := by
  unfold mkTimedelta
  rw [if_neg]
  push_neg
  omega

theorem parse_interval_digit_suffix (cs : List Char) (h : cs ≠ [])
    (hd : allDigits cs = true) :
    ((digitsVal cs : Int) ≤ 1439999999999 →
      parse_interval ⟨cs ++ ['m']⟩ = .ok ⟨(digitsVal cs : Int) * 60⟩) ∧
    ((digitsVal cs : Int) ≤ 23999999999 →
      parse_interval ⟨cs ++ ['h']⟩ = .ok ⟨(digitsVal cs : Int) * 3600⟩) ∧
    ((digitsVal cs : Int) ≤ 999999999 →
      parse_interval ⟨cs ++ ['d']⟩ = .ok ⟨(digitsVal cs : Int) * 86400⟩) := by
  have hint := pyInt_digits cs h hd
  have hnn : (0 : Int) ≤ (digitsVal cs : Int) := Int.ofNat_nonneg _
  refine ⟨fun hk => ?_, fun hk => ?_, fun hk => ?_⟩
  · simp only [parse_interval, List.getLast?_concat, List.dropLast_concat, hint]
    exact mkTimedelta_ok ((digitsVal cs : Int) * 60) (by omega) (by omega)
  · simp only [parse_interval, List.getLast?_concat, List.dropLast_concat, hint]
    exact mkTimedelta_ok ((digitsVal cs : Int) * 3600) (by omega) (by omega)
  · simp only [parse_interval, List.getLast?_concat, List.dropLast_concat, hint]
    exact mkTimedelta_ok ((digitsVal cs : Int) * 86400) (by omega) (by omega)

/-! ### Claims -/

/-- C4 counterexample: the non-negative integer prefix `2000000000000`
with suffix `m` does not map to a duration — the `timedelta` constructor
raises `OverflowError` (normalized day count 1388888888 exceeds
999999999), which is neither a success nor the claim's
`InvalidIntervalFormat`. -/
theorem C4_counterexample :
    parse_interval "2000000000000m" = .error .overflowError ∧
    PyError.overflowError ≠ PyError.valueError :=
  ⟨rfl, by decide⟩

/-- C4 (amended): `parse_interval` maps a non-negative integer prefix
followed by one of the suffixes `m`, `h`, `d` to that many minutes, hours
or days as long as the result stays within `timedelta`'s ±999999999-day
range (at most 1439999999999 minutes, 23999999999 hours, 999999999 days);
beyond that the `timedelta` constructor raises `OverflowError`.  It fails
with a `ValueError` (the spec's `InvalidIntervalFormat`) when the suffix
is absent or unrecognized (for example `5x`) or the prefix is not an
integer (for example `m`). -/
theorem C4_amended_parse_interval_spec :
    (∀ cs : List Char, cs ≠ [] → allDigits cs = true →
      ((digitsVal cs : Int) ≤ 1439999999999 →
        parse_interval ⟨cs ++ ['m']⟩ = .ok ⟨(digitsVal cs : Int) * 60⟩) ∧
      ((digitsVal cs : Int) ≤ 23999999999 →
        parse_interval ⟨cs ++ ['h']⟩ = .ok ⟨(digitsVal cs : Int) * 3600⟩) ∧
      ((digitsVal cs : Int) ≤ 999999999 →
        parse_interval ⟨cs ++ ['d']⟩ = .ok ⟨(digitsVal cs : Int) * 86400⟩)) ∧
    parse_interval "5x" = .error .valueError ∧
    parse_interval "m" = .error .valueError :=
  ⟨parse_interval_digit_suffix, rfl, rfl⟩

/-- C4 (amended) witness: the spec's concrete examples, obtained from the
theorem at the digit lists of `5`, `2` and `1`. -/
theorem C4_amended_parse_interval_spec_witness :
    parse_interval "5m" = .ok ⟨300⟩ ∧
    parse_interval "2h" = .ok ⟨7200⟩ ∧
    parse_interval "1d" = .ok ⟨86400⟩ := by
  have h5 := C4_amended_parse_interval_spec.1 ['5'] (by decide) (by decide)
  have h2 := C4_amended_parse_interval_spec.1 ['2'] (by decide) (by decide)
  have h1 := C4_amended_parse_interval_spec.1 ['1'] (by decide) (by decide)
  exact ⟨h5.1 (by decide), h2.2.1 (by decide), h1.2.2 (by decide)⟩

/-- C1: whenever the backend call fails with an HTTP error or a transport
error, each of the five tools returns its empty default (`[]` for the four
list-returning tools, the empty object for `get_log_stats`) instead of
propagating the failure.  For `query_range` the backend is only reached
once the window string has parsed, hence the `parse_interval_opt`
hypothesis. -/
theorem C1_backend_failure_empty_default (now_ns : Int) (req : LokiRequest)
    (backend : Backend) (err : BackendError) (td : Timedelta)
    (hb : ∀ ep ps, backend ep ps = .error err)
    (hp : parse_interval_opt (pyOr req.interval req.step) = .ok td) :
    query_range now_ns req backend = .ok (Json.arr []) ∧
    instant_query now_ns req backend = .ok (Json.arr []) ∧
    get_labels req backend = .ok (Json.arr []) ∧
    get_label_values req backend = .ok (Json.arr []) ∧
    get_log_stats req backend = .ok (Json.obj []) := by
  refine ⟨?_, ?_, ?_, ?_, ?_⟩ <;>
    simp [query_range, instant_query, get_labels, get_label_values,
      get_log_stats, query_range_params, hp, hb]

/-- C1 witness: a transport-failing backend at a concrete request. -/
theorem C1_backend_failure_empty_default_witness :
    query_range 0 { query := "q", interval := some "5m" }
        (fun _ _ => .error .transportError) = .ok (Json.arr []) ∧
    instant_query 0 { query := "q", interval := some "5m" }
        (fun _ _ => .error .transportError) = .ok (Json.arr []) ∧
    get_labels { query := "q", interval := some "5m" }
        (fun _ _ => .error .transportError) = .ok (Json.arr []) ∧
    get_label_values { query := "q", interval := some "5m" }
        (fun _ _ => .error .transportError) = .ok (Json.arr []) ∧
    get_log_stats { query := "q", interval := some "5m" }
        (fun _ _ => .error .transportError) = .ok (Json.obj []) :=
  C1_backend_failure_empty_default 0 { query := "q", interval := some "5m" }
    (fun _ _ => .error .transportError) .transportError ⟨300⟩
    (fun _ _ => rfl) rfl

/-- Characterisation of the five fixed entries of the `query_range`
parameter dict, given that the window string parsed to `td`. -/
theorem query_range_params_lookup (now_ns : Int) (req : LokiRequest)
    (td : Timedelta)
    (hp : parse_interval_opt (pyOr req.interval req.step) = .ok td) :
    (query_range_params now_ns req).map (fun ps =>
        (ps.lookup "query", ps.lookup "limit", ps.lookup "start",
         ps.lookup "end", ps.lookup "direction")) =
      .ok (some (PValue.str req.query), some (PValue.int req.limit),
           some (PValue.int (pyOrElseInt req.start (now_ns - td.total_ns))),
           some (PValue.int (pyOrElseInt req.end_ now_ns)),
           some (PValue.ofOptStr req.direction)) := by
  unfold query_range_params
  rw [hp]
  cases hti : truthyStr req.interval <;> cases hts : truthyStr req.step <;>
    simp [Except.map, List.lookup]

/-- C2 counterexample: a request with `start = 0` (and a valid interval so
that line 59 succeeds) does not pass `0` through — Python truthiness
replaces it with the derived timestamp `now - 300s`. -/
theorem C2_counterexample :
    (query_range_params 1000000000000000000
        { query := "q", start := some 0, end_ := some 7,
          interval := some "5m" }).map (fun ps => ps.lookup "start") =
      .ok (some (PValue.int 999999700000000000)) ∧
    PValue.int 999999700000000000 ≠ PValue.int 0 :=
  ⟨rfl, by decide⟩

/-- C2 (amended): `query_range` passes provided `start` and `end` through
unchanged only when both are non-zero (Python truthiness: `0` is falsy and
is replaced by the derived timestamp), and only once the ever-present
window derivation of line 59 has succeeded. -/
theorem C2_amended_passthrough_nonzero (now_ns : Int) (req : LokiRequest)
    (s e : Int) (ps : Params)
    (hs : req.start = some s) (hs0 : s ≠ 0)
    (he : req.end_ = some e) (he0 : e ≠ 0)
    (hp : query_range_params now_ns req = .ok ps) :
    ps.lookup "start" = some (PValue.int s) ∧
    ps.lookup "end" = some (PValue.int e) := by
  cases hpi : parse_interval_opt (pyOr req.interval req.step) with
  | error e' =>
    exfalso
    simp only [query_range_params, hpi] at hp
    exact Except.noConfusion hp
  | ok td =>
    have hl := query_range_params_lookup now_ns req td hpi
    rw [hp] at hl
    simp only [Except.map, Except.ok.injEq, Prod.mk.injEq] at hl
    obtain ⟨-, -, h3, h4, -⟩ := hl
    rw [h3, h4, hs, he]
    simp [pyOrElseInt, hs0, he0]

/-- C2 (amended) witness: non-zero `start`/`end` at a concrete request. -/
theorem C2_amended_passthrough_nonzero_witness :
    ∃ ps : Params,
      query_range_params 1000000000000000000
        { query := "q", start := some 11, end_ := some 22,
          interval := some "5m" } = .ok ps ∧
      ps.lookup "start" = some (PValue.int 11) ∧
      ps.lookup "end" = some (PValue.int 22) := by
  refine ⟨[("query", PValue.str "q"), ("limit", PValue.int 100),
    ("start", PValue.int 11), ("end", PValue.int 22),
    ("direction", PValue.str "backward"),
    ("interval", PValue.str "5m")], rfl, ?_⟩
  exact C2_amended_passthrough_nonzero 1000000000000000000
    { query := "q", start := some 11, end_ := some 22, interval := some "5m" }
    11 22 _ rfl (by decide) rfl (by decide) rfl

/-- C3 counterexample: `start` and `end` are both supplied, yet
`query_range`'s parameter construction fails, because line 59
unconditionally evaluates `parse_interval(interval or step)` and both are
`None` (Python raises `AttributeError` on `None.endswith`). -/
theorem C3_counterexample :
    query_range_params 0 { query := "q", start := some 5, end_ := some 6 } =
      .error .attributeError := rfl

/-- C3 (amended): window parsing is invoked on every call regardless of
`start`; whenever neither `interval` nor `step` is truthy, `query_range`
raises — `AttributeError` when `step` is `None` (since `interval or step`
is then `None`) and `ValueError` when `step` is the empty string (since
`parse_interval("")` has no recognized suffix) — even when `start` and
`end` are set; there is no separate `MissingWindowSpecifier`. -/
theorem C3_amended_window_always_parsed (now_ns : Int) (req : LokiRequest)
    (backend : Backend)
    (hi : truthyStr req.interval = false)
    (hs : truthyStr req.step = false) :
    query_range now_ns req backend =
      .error (match req.step with
        | Option.none => PyError.attributeError
        | some _ => PyError.valueError) := by
  have horx : ∀ x, pyOr req.interval x = x := by
    intro x
    simp [pyOr, hi]
  cases hstep : req.step with
  | none =>
    simp [query_range, query_range_params, horx, hstep, parse_interval_opt]
  | some s =>
    have hs' : s = "" := by
      rw [hstep] at hs
      simpa [truthyStr] using hs
    subst hs'
    have hpe : parse_interval "" = .error .valueError := rfl
    simp [query_range, query_range_params, horx, hstep, parse_interval_opt, hpe]

/-- C3 (amended) witness: `start` and `end` set, concrete backend; with no
interval/step the tool raises `AttributeError`, with `step = ""` it raises
`ValueError`. -/
theorem C3_amended_window_always_parsed_witness :
    query_range 0 { query := "q", start := some 5, end_ := some 6 }
      (fun _ _ => .ok (Json.obj [])) = .error .attributeError ∧
    query_range 0 { query := "q", start := some 5, end_ := some 6, step := some "" }
      (fun _ _ => .ok (Json.obj [])) = .error .valueError :=
  ⟨C3_amended_window_always_parsed 0
      { query := "q", start := some 5, end_ := some 6 }
      (fun _ _ => .ok (Json.obj [])) rfl rfl,
   C3_amended_window_always_parsed 0
      { query := "q", start := some 5, end_ := some 6, step := some "" }
      (fun _ _ => .ok (Json.obj [])) rfl rfl⟩

/-- C5 counterexample: with `interval = ""` (set but falsy) and
`step = "5m"`, the derived start uses `parse_interval("5m")` = 300 s, even
though `parse_interval(interval)` has no value at all (it fails). -/
theorem C5_counterexample :
    (query_range_params 1000000000000000000
        { query := "q", interval := some "", step := some "5m" }).map
      (fun ps => ps.lookup "start") =
      .ok (some (PValue.int 999999700000000000)) ∧
    parse_interval "" = .error .valueError :=
  ⟨rfl, rfl⟩

/-- C5 (amended): when `interval` is set to a non-empty (truthy) string,
the duration used to derive the start timestamp is `parse_interval
(interval)` regardless of `step`; an empty-string `interval`, although
set, falls through to `step`. -/
theorem C5_amended_truthy_interval_preferred (now_ns : Int)
    (req : LokiRequest) (i : String) (td : Timedelta)
    (hi : req.interval = some i) (hne : i ≠ "")
    (hs : req.start = Option.none)
    (hp : parse_interval i = .ok td) :
    (query_range_params now_ns req).map (fun ps => ps.lookup "start") =
      .ok (some (PValue.int (now_ns - td.total_ns))) := by
  have hor : pyOr req.interval req.step = some i := by
    simp [pyOr, truthyStr, hi, hne]
  have hpi : parse_interval_opt (pyOr req.interval req.step) = .ok td := by
    rw [hor]; exact hp
  cases hq : query_range_params now_ns req with
  | error e =>
    exfalso
    have hl := query_range_params_lookup now_ns req td hpi
    rw [hq] at hl
    simp [Except.map] at hl
  | ok ps =>
    have hl := query_range_params_lookup now_ns req td hpi
    rw [hq] at hl
    simp only [Except.map, Except.ok.injEq, Prod.mk.injEq] at hl
    obtain ⟨-, -, h3, -, -⟩ := hl
    simp only [Except.map, Except.ok.injEq]
    rw [h3, hs]
    rfl

/-- C5 (amended) witness: `interval = "5m"` wins over `step = "99d"`. -/
theorem C5_amended_truthy_interval_preferred_witness :
    (query_range_params 0
        { query := "q", interval := some "5m", step := some "99d" }).map
      (fun ps => ps.lookup "start") =
      .ok (some (PValue.int (-300000000000))) :=
  C5_amended_truthy_interval_preferred 0
    { query := "q", interval := some "5m", step := some "99d" }
    "5m" ⟨300⟩ rfl (by decide) rfl rfl

/-- C6 counterexample: `interval = ""` is a set, malformed duration string
(`parse_interval ""` fails), yet `query_range` raises nothing — truthiness
falls through to the well-formed `step`, and the call succeeds. -/
theorem C6_counterexample :
    query_range 0 { query := "q", interval := some "", step := some "5m" }
      (fun _ _ => .ok (Json.obj [("status", Json.str "success"),
        ("data", Json.obj [("result", Json.arr [Json.str "x"])])])) =
      .ok (Json.arr [Json.str "x"]) ∧
    parse_interval "" = .error .valueError :=
  ⟨rfl, rfl⟩

/-- C6 (amended): when the effective window string — `interval` when
truthy, otherwise `step` — is malformed, the parse failure propagates out
of `query_range` as a raised failure, never absorbed into the empty
default the way backend errors are. -/
theorem C6_amended_malformed_window_propagates (now_ns : Int)
    (req : LokiRequest) (backend : Backend) (s : String) (e : PyError)
    (hs : pyOr req.interval req.step = some s)
    (he : parse_interval s = .error e) :
    query_range now_ns req backend = .error e := by
  simp [query_range, query_range_params, parse_interval_opt, hs, he]

/-- C6 (amended) witness: `interval = "5x"` raises `ValueError` even though
the backend would have answered. -/
theorem C6_amended_malformed_window_propagates_witness :
    query_range 0 { query := "q", interval := some "5x" }
      (fun _ _ => .ok (Json.obj [])) = .error .valueError :=
  C6_amended_malformed_window_propagates 0
    { query := "q", interval := some "5x" }
    (fun _ _ => .ok (Json.obj [])) "5x" .valueError rfl rfl

/-- C7 counterexample: `get_label_values` with `label = ""` is not
rejected: the empty label is interpolated into the endpoint path
(`label//values`), the backend is called there, and the backend's answer
is returned — so a network call is made and succeeds. -/
theorem C7_counterexample :
    get_label_values { query := "q", label := some "" }
      (fun ep _ => if ep == "label//values"
        then .ok (Json.obj [("data", Json.arr [Json.str "a"])])
        else .error .transportError) = .ok (Json.arr [Json.str "a"]) := rfl

/-- C7 (amended): `get_label_values` performs no validation of `label`; an
empty label is forwarded verbatim into the endpoint path
`label//values`, and the tool returns the normalized backend response
from that endpoint. -/
theorem C7_amended_empty_label_forwarded (req : LokiRequest)
    (backend : Backend) (j : Json)
    (hl : req.label = some "")
    (hb : backend "label//values" (get_label_values_params req) = .ok j) :
    get_label_values req backend = pyDictGet j "data" (Json.arr []) := by
  have hep : label_values_endpoint req = "label//values" := by
    unfold label_values_endpoint
    rw [hl]
    rfl
  simp [get_label_values, hep, hb]

/-- C7 (amended) witness: a concrete empty-label request whose result is
the backend's data array. -/
theorem C7_amended_empty_label_forwarded_witness :
    get_label_values { query := "q", label := some "" }
      (fun _ _ => .ok (Json.obj [("data", Json.arr [Json.str "b"])])) =
      .ok (Json.arr [Json.str "b"]) :=
  C7_amended_empty_label_forwarded { query := "q", label := some "" }
    (fun _ _ => .ok (Json.obj [("data", Json.arr [Json.str "b"])]))
    (Json.obj [("data", Json.arr [Json.str "b"])]) rfl rfl

/-- C8: `get_log_stats` returns the full decoded JSON body unchanged on a
successful backend response, and the empty object on any backend
failure. -/
theorem C8_get_log_stats_body (req : LokiRequest) (backend : Backend) :
    (∀ j : Json,
      backend "index/stats" (get_log_stats_params req) = .ok j →
      get_log_stats req backend = .ok j) ∧
    (∀ e : BackendError,
      backend "index/stats" (get_log_stats_params req) = .error e →
      get_log_stats req backend = .ok (Json.obj [])) := by
  constructor
  · intro j hj
    simp [get_log_stats, hj]
  · intro e he
    simp [get_log_stats, he]

/-- C8 witness: a concrete success body comes back whole; a concrete
transport failure yields the empty object. -/
theorem C8_get_log_stats_body_witness :
    get_log_stats { query := "q" }
        (fun _ _ => .ok (Json.obj [("streams", Json.int 2),
          ("chunks", Json.int 3)])) =
      .ok (Json.obj [("streams", Json.int 2), ("chunks", Json.int 3)]) ∧
    get_log_stats { query := "q" } (fun _ _ => .error .transportError) =
      .ok (Json.obj []) :=
  ⟨(C8_get_log_stats_body { query := "q" }
      (fun _ _ => .ok (Json.obj [("streams", Json.int 2),
        ("chunks", Json.int 3)]))).1 _ rfl,
   (C8_get_log_stats_body { query := "q" }
      (fun _ _ => .error .transportError)).2 .transportError rfl⟩

/-- C9 counterexample: nothing enforces the invariant — a request with
`start = 5 > end = 3`, `limit = 0` and `direction = "up"` is passed to the
backend exactly as given. -/
theorem C9_counterexample :
    (query_range_params 7
        { query := "q", limit := 0, start := some 5, end_ := some 3,
          direction := some "up", interval := some "5m" }).map
      (fun ps => (ps.lookup "start", ps.lookup "end", ps.lookup "limit",
        ps.lookup "direction")) =
      .ok (some (PValue.int 5), some (PValue.int 3), some (PValue.int 0),
        some (PValue.str "up")) ∧
    ¬ ((5 : Int) ≤ 3) ∧ ¬ ((0 : Int) > 0) ∧
    "up" ≠ "forward" ∧ "up" ≠ "backward" :=
  ⟨rfl, by decide, by decide, by decide, by decide⟩

/-- C9 (amended): the tools do not validate the invariant; it holds for
the derived defaults: when `start` and `end` are both unset, `limit` and
`direction` keep their dataclass defaults, and the window string parses to
a non-negative duration, then the resolved `start ≤ end`, the limit is
`100 > 0` and the direction is `backward`. -/
theorem C9_amended_default_invariant (now_ns : Int) (req : LokiRequest)
    (td : Timedelta) (ps : Params)
    (hs : req.start = Option.none) (he : req.end_ = Option.none)
    (hl : req.limit = 100) (hd : req.direction = some "backward")
    (hp : parse_interval_opt (pyOr req.interval req.step) = .ok td)
    (htd : 0 ≤ td.seconds)
    (hps : query_range_params now_ns req = .ok ps) :
    ps.lookup "start" = some (PValue.int (now_ns - td.total_ns)) ∧
    ps.lookup "end" = some (PValue.int now_ns) ∧
    now_ns - td.total_ns ≤ now_ns ∧
    ps.lookup "limit" = some (PValue.int 100) ∧ (0 : Int) < 100 ∧
    ps.lookup "direction" = some (PValue.str "backward") := by
  have hlk := query_range_params_lookup now_ns req td hp
  rw [hps] at hlk
  simp only [Except.map, Except.ok.injEq, Prod.mk.injEq] at hlk
  obtain ⟨-, h2, h3, h4, h5⟩ := hlk
  have hns : (0 : Int) ≤ td.total_ns := by
    unfold Timedelta.total_ns
    exact mul_nonneg htd (by norm_num)
  refine ⟨?_, ?_, ?_, ?_, by norm_num, ?_⟩
  · rw [h3, hs]; rfl
  · rw [h4, he]; rfl
  · omega
  · rw [h2, hl]
  · rw [h5, hd]; rfl

/-- C9 (amended) witness: all-default request with interval `"0m"`. -/
theorem C9_amended_default_invariant_witness :
    ∃ ps : Params,
      query_range_params 10 { query := "q", interval := some "7m" } = .ok ps ∧
      (ps.lookup "start" = some (PValue.int (10 - 420000000000)) ∧
       ps.lookup "end" = some (PValue.int 10) ∧
       (10 : Int) - 420000000000 ≤ 10 ∧
       ps.lookup "limit" = some (PValue.int 100) ∧ (0 : Int) < 100 ∧
       ps.lookup "direction" = some (PValue.str "backward")) := by
  have hq : query_range_params 10 { query := "q", interval := some "7m" } =
      .ok [("query", PValue.str "q"), ("limit", PValue.int 100),
        ("start", PValue.int (-419999999990)), ("end", PValue.int 10),
        ("direction", PValue.str "backward"),
        ("interval", PValue.str "7m")] := rfl
  refine ⟨_, hq, ?_⟩
  exact C9_amended_default_invariant 10
    { query := "q", interval := some "7m" } ⟨420⟩ _
    rfl rfl rfl rfl rfl (by norm_num) hq

/-- C10: the parameter dicts of `get_labels`, `get_label_values` and
`get_log_stats` consist of exactly the keys `query`, `start`, `end`, and
the request's `limit`, `direction`, `interval`, `step` and `selector`
fields have no effect on them. -/
theorem C10_label_tools_params_frame :
    ∀ req : LokiRequest,
      ((get_labels_params req).map Prod.fst = ["query", "start", "end"] ∧
       (get_label_values_params req).map Prod.fst = ["query", "start", "end"] ∧
       (get_log_stats_params req).map Prod.fst = ["query", "start", "end"]) ∧
      ∀ (l : Int) (d i st sel : Option String),
        get_labels_params
            { req with
              limit := l,
              direction := d,
              interval := i,
              step := st,
              selector := sel } =
          get_labels_params req ∧
        get_label_values_params
            { req with
              limit := l,
              direction := d,
              interval := i,
              step := st,
              selector := sel } =
          get_label_values_params req ∧
        get_log_stats_params
            { req with
              limit := l,
              direction := d,
              interval := i,
              step := st,
              selector := sel } =
          get_log_stats_params req :=
  fun _ => ⟨⟨rfl, rfl, rfl⟩, fun _ _ _ _ _ => ⟨rfl, rfl, rfl⟩⟩
